import Mathlib

/-!
Shallow embedding of the SharkV1 storefront bot (src/bot.py, src/keep_alive.py).

Conventions of the embedding:
* Python dictionaries `context.user_data` and `draft` become structures with
  `Option` fields.  Every read of a draft key in the source goes through
  `dict.get`, so a key whose value is `None` is indistinguishable from an
  absent key; both are represented as `none`.
* Python string truthiness (`if not product`, `if draft.get(key)`) is the
  predicate "the value, defaulting to the empty string, is non-empty"
  (`truthy` below).
* The SQLite tables become lists of records kept in insertion order, with the
  AUTOINCREMENT primary key modelled by a `next…Id` counter.  `ORDER BY id
  DESC` is modelled by sorting with `List.insertionSort` on the "newer first"
  relation, exactly mirroring the SQL contract rather than the physical row
  order.
* Telegram updates become an `Event` inductive.  Callback payloads carry the
  part after the colon, which is what `query.data.split(":", maxsplit=1)[1]`
  extracts once a `CallbackQueryHandler` pattern has matched.
* Handler replies are modelled by the text of the message sent (keyboards are
  display-only and carry no state).  `none` means no message was sent.
* Wall-clock time (`datetime.utcnow`) is abstracted as the `clock` field of
  the state; no claim depends on its value.
-/

namespace SharkV1

/-- Product catalog from src/bot.py (`CATALOG`): each product maps duration
labels to integer prices. -/
def CATALOG : List (String × List (String × Nat)) :=
  [("Netflix", [("1 day", 5), ("7 days", 20), ("30 days", 60)]),
   ("YouTube Premium", [("1 day", 4), ("7 days", 15), ("30 days", 45)]),
   ("Spotify", [("1 day", 3), ("7 days", 12), ("30 days", 35)]),
   ("ChatGPT Plus", [("1 day", 6), ("7 days", 25), ("30 days", 80)])]

/-- Account types from src/bot.py (`ACCOUNT_TYPES`). -/
def ACCOUNT_TYPES : List String := ["Basic", "Premium", "VIP"]

/-- Membership test `product in CATALOG` together with the lookup
`CATALOG[product]`. -/
def catalogDurations (product : String) : Option (List (String × Nat)) :=
  (CATALOG.find? (fun e => e.1 == product)).map (·.2)

/-- Membership test `duration in CATALOG[product]` together with the lookup
`CATALOG[product][duration]`. -/
def durationPrice (tbl : List (String × Nat)) (duration : String) : Option Nat :=
  (tbl.find? (fun e => e.1 == duration)).map (·.2)

/-- The catalog price of a (product, duration) pair, when both are valid. -/
def catalogPrice (product duration : String) : Option Nat :=
  match catalogDurations product with
  | some tbl => durationPrice tbl duration
  | none => none

/-- Python string truthiness of an optional draft value: `None` and `""` are
falsy, everything else is truthy. -/
def truthy (o : Option String) : Bool := o.getD "" != ""

/-- Embedding of Python's `str.strip()`: drop leading and trailing
whitespace. -/
def pyStrip (s : String) : String :=
  ⟨((s.data.dropWhile Char.isWhitespace).reverse.dropWhile Char.isWhitespace).reverse⟩

/-- Welcome banner from src/bot.py (`WELCOME_TEXT`). -/
def WELCOME_TEXT : String :=
  "🦈 *SharkV1 Shop*\n✅ Premium Services\n🔒 Secure Payments\n⚡ Instant Delivery\n🛟 24/7 Support\n👇 Choose a category:"

/-- A row of the `orders` table (schema in `init_db`, src/bot.py lines 63-75). -/
structure Order where
  id : Nat
  user_id : Nat
  username : Option String
  product : String
  duration : String
  account_type : String
  details_text : Option String
  details_file_id : Option String
  status : String
  created_at : Nat
deriving DecidableEq

/-- A row of the `support_tickets` table (schema in `init_db`). -/
structure Ticket where
  id : Nat
  user_id : Nat
  username : Option String
  message_text : String
  created_at : Nat
  status : String
deriving DecidableEq

/-- The SQLite database: both tables in insertion order plus the
AUTOINCREMENT counters. -/
structure DB where
  orders : List Order := []
  tickets : List Ticket := []
  nextOrderId : Nat := 1
  nextTicketId : Nat := 1
deriving DecidableEq

/-- Columns of the `orders` table as created by `init_db` in src/bot.py. -/
def ordersTableColumns : List String :=
  ["id", "user_id", "username", "product", "duration", "account_type",
   "details_text", "details_file_id", "status", "created_at"]

/-- Columns of the `orders` table as the specification describes them
(spec section 6, "Persisted schema").  This definition follows the spec's
words, for comparison with `ordersTableColumns`, which follows the source. -/
def specOrdersColumns : List String :=
  ["id", "user_id", "username", "product", "duration", "price", "account_type",
   "email", "password", "details_text", "details_file_ref", "status",
   "created_at", "payment_reference"]

/-- Embedding of `save_order` (src/bot.py lines 91-120): inserts one new row
with status 'pending' and returns the assigned id. -/
def save_order (db : DB) (user_id : Nat) (username : Option String)
    (product duration account_type : String)
    (details_text details_file_id : Option String) (now : Nat) : DB × Nat :=
  let o : Order :=
    { id := db.nextOrderId, user_id := user_id, username := username,
      product := product, duration := duration, account_type := account_type,
      details_text := details_text, details_file_id := details_file_id,
      status := "pending", created_at := now }
  ({ db with orders := db.orders ++ [o], nextOrderId := db.nextOrderId + 1 },
   db.nextOrderId)

/-- The "most recent first" order used by `ORDER BY id DESC`. -/
def newerFirst (a b : Order) : Prop := b.id ≤ a.id

instance : DecidableRel newerFirst :=
  fun a b => inferInstanceAs (Decidable (b.id ≤ a.id))

instance : IsTotal Order newerFirst := ⟨fun a b => Nat.le_total b.id a.id⟩

instance : IsTrans Order newerFirst :=
  ⟨fun _ _ _ h1 h2 => Nat.le_trans h2 h1⟩

/-- Embedding of `get_user_orders` (src/bot.py lines 123-134):
`SELECT … WHERE user_id = ? ORDER BY id DESC LIMIT 20`. -/
def get_user_orders (db : DB) (user_id : Nat) : List Order :=
  ((db.orders.filter (fun o => o.user_id == user_id)).insertionSort newerFirst).take 20

/-- Embedding of `get_profile_counts` (src/bot.py lines 137-147). -/
def get_profile_counts (db : DB) (user_id : Nat) : Nat × Nat :=
  ((db.orders.filter (fun o => o.user_id == user_id)).length,
   (db.orders.filter (fun o => o.user_id == user_id && o.status == "approved")).length)

/-- Embedding of `save_ticket` (src/bot.py lines 150-164). -/
def save_ticket (db : DB) (user_id : Nat) (username : Option String)
    (message_text : String) (now : Nat) : DB × Nat :=
  let t : Ticket :=
    { id := db.nextTicketId, user_id := user_id, username := username,
      message_text := message_text, created_at := now, status := "open" }
  ({ db with tickets := db.tickets ++ [t], nextTicketId := db.nextTicketId + 1 },
   db.nextTicketId)

/-- The per-user order draft: the `draft` dictionary held in
`context.user_data`. -/
structure Draft where
  product : Option String := none
  duration : Option String := none
  account_type : Option String := none
  details_text : Option String := none
  details_file_id : Option String := none
deriving DecidableEq

/-- A fresh, empty draft (the Python literal `{}`). -/
def emptyDraft : Draft := {}

/-- The per-user `context.user_data` dictionary: at most a draft and a mode
marker. -/
structure UserData where
  draft : Option Draft := none
  mode : Option String := none
deriving DecidableEq

/-- Embedding of `get_draft` (src/bot.py lines 168-169):
`user_data.setdefault("draft", {})` returns the existing draft or installs an
empty one; the possibly-updated `user_data` is returned alongside. -/
def get_draft (ud : UserData) : Draft × UserData :=
  match ud.draft with
  | some d => (d, ud)
  | none => (emptyDraft, { ud with draft := some emptyDraft })

/-- Embedding of `clear_flow` (src/bot.py lines 172-174): pops both the mode
marker and the draft. -/
def clear_flow (_ud : UserData) : UserData := {}

/-- Price line of the order summary (src/bot.py lines 259-261): '-' unless
both product and duration are valid in the catalog. -/
def summaryPrice (product duration : String) : String :=
  match catalogPrice product duration with
  | some p => "$" ++ toString p
  | none => "-"

/-- Embedding of `render_order_summary` (src/bot.py lines 255-279). -/
def render_order_summary (draft : Draft) : String :=
  let product := draft.product.getD "-"
  let duration := draft.duration.getD "-"
  let account_type := draft.account_type.getD "-"
  let price := summaryPrice product duration
  let details :=
    if truthy draft.details_text then draft.details_text.getD ""
    else if truthy draft.details_file_id then "[photo uploaded]"
    else "-"
  "*Order Confirmation*\n• Product: `" ++ product ++ "`\n• Duration: `" ++
    duration ++ "`\n• Account Type: `" ++ account_type ++ "`\n• Price: `" ++
    price ++ "`\n• Details: `" ++ details ++ "`"

/-- The acting Telegram user (`query.from_user` / `update.effective_user`). -/
structure User where
  id : Nat
  username : Option String
deriving DecidableEq

/-- Whole-system state seen by one user's handlers: that user's
`context.user_data` plus the shared database.  `clock` abstracts the wall
clock used for `created_at` stamps. -/
structure BotState where
  ud : UserData := {}
  db : DB := {}
  clock : Nat := 0
deriving DecidableEq

/-- An incoming Telegram update, as dispatched by the handler patterns
registered in `build_application` (src/bot.py lines 589-602).  Callback
events carry the payload after the first colon. -/
inductive Event where
  | start
  | menu (action : String)
  | back (target : String)
  | product (name : String)
  | duration (label : String)
  | account (name : String)
  | confirm
  | message (text : Option String) (photo : List String)
deriving DecidableEq

/-- Text listing a user's recent orders (src/bot.py lines 329-338). -/
def ordersText (orders : List Order) : String :=
  if orders.isEmpty then "📦 You have no orders yet."
  else
    "*📦 Your last 20 orders*\n" ++
      String.intercalate "\n"
        (orders.map (fun row =>
          "Order #" ++ toString row.id ++ " | " ++ row.product ++ " | " ++
            row.duration ++ " | " ++ row.status))

/-- Profile text (src/bot.py lines 343-349). -/
def profileText (counts : Nat × Nat) : String :=
  "*👤 Profile*\nTotal Orders: " ++ toString counts.1 ++
    "\nApproved Orders: " ++ toString counts.2

/-- Embedding of the `start` command handler (src/bot.py lines 290-297). -/
def start (s : BotState) : BotState × Option String :=
  ({ s with ud := clear_flow s.ud }, some WELCOME_TEXT)

/-- Embedding of `menu_router` (src/bot.py lines 300-381).  `action` is the
full callback data, which always begins with "menu:". -/
def menu_router (u : User) (action : String) (s : BotState) :
    BotState × Option String :=
  if action == "menu:home" then
    ({ s with ud := clear_flow s.ud }, some WELCOME_TEXT)
  else if action == "menu:order" then
    ({ s with ud := { clear_flow s.ud with draft := some emptyDraft } },
     some "*Select a product:*")
  else if action == "menu:orders" then
    (s, some (ordersText (get_user_orders s.db u.id)))
  else if action == "menu:profile" then
    (s, some (profileText (get_profile_counts s.db u.id)))
  else if action == "menu:support" then
    ({ s with ud := { s.ud with mode := some "support" } },
     some "🛟 *Support*\nPlease type your issue and send it now.")
  else if action == "menu:offers" then
    (s, some "*🔥 Special Offers*\n• 10% OFF on all 30-day plans\n• Priority queue for Premium/VIP orders\n• Weekend flash discounts on selected products")
  else if action == "menu:how" then
    (s, some "*🧾 How it works*\n1. Tap *Order* and select your product\n2. Choose duration and account type\n3. Send order details as text or photo\n4. Confirm and receive your order ID")
  else (s, none)

/-- Embedding of `back_router` (src/bot.py lines 384-417).  Note the source
calls `get_draft` before branching, so every back event materialises an empty
draft if none exists. -/
def back_router (target : String) (s : BotState) : BotState × Option String :=
  let p := get_draft s.ud
  let draft := p.1
  let s1 : BotState := { s with ud := p.2 }
  if target == "products" then (s1, some "*Select a product:*")
  else if target == "durations" then
    if truthy draft.product then
      (s1, some ("*" ++ draft.product.getD "" ++ "*\nSelect duration:"))
    else (s1, some "*Select a product:*")
  else if target == "account_types" then (s1, some "Select account type:")
  else if target == "details" then
    ({ s1 with ud := { p.2 with mode := some "order_details" } },
     some "Send details (text) or upload photo")
  else (s1, none)

/-- Embedding of `on_product` (src/bot.py lines 420-443). -/
def on_product (name : String) (s : BotState) : BotState × Option String :=
  if (catalogDurations name).isNone then
    (s, some "Invalid product. Please choose again.")
  else
    let p := get_draft s.ud
    let d : Draft :=
      { p.1 with product := some name, duration := none, account_type := none,
                 details_text := none, details_file_id := none }
    ({ s with ud := { p.2 with draft := some d } },
     some ("*" ++ name ++ "*\nSelect duration:"))

/-- Embedding of `on_duration` (src/bot.py lines 446-468). -/
def on_duration (label : String) (s : BotState) : BotState × Option String :=
  let p := get_draft s.ud
  let d := p.1
  let s1 : BotState := { s with ud := p.2 }
  if !(truthy d.product) then (s1, some "Please select a product first.")
  else
    match catalogDurations (d.product.getD "") with
    | none => (s1, some "Please select a product first.")
    | some tbl =>
      if (durationPrice tbl label).isNone then
        (s1, some "Invalid duration. Please choose again.")
      else
        let d1 : Draft :=
          { d with duration := some label, account_type := none,
                   details_text := none, details_file_id := none }
        ({ s1 with ud := { p.2 with draft := some d1 } },
         some "Select account type:")

/-- Embedding of `on_account` (src/bot.py lines 471-492). -/
def on_account (name : String) (s : BotState) : BotState × Option String :=
  if !(ACCOUNT_TYPES.contains name) then
    (s, some "Invalid account type. Please choose again.")
  else
    let p := get_draft s.ud
    let d := p.1
    if !(truthy d.product) || !(truthy d.duration) then
      ({ s with ud := p.2 }, some "Please select product and duration first.")
    else
      let d1 : Draft :=
        { d with account_type := some name, details_text := none,
                 details_file_id := none }
      ({ s with ud := { p.2 with draft := some d1, mode := some "order_details" } },
       some "Send details (text) or upload photo")

/-- Embedding of `on_confirm` (src/bot.py lines 495-527).  Note the source
reads the draft with `user_data.get("draft", {})`, without installing it. -/
def on_confirm (u : User) (s : BotState) : BotState × Option String :=
  let draft := s.ud.draft.getD emptyDraft
  if !(truthy draft.product) || !(truthy draft.duration) ||
      !(truthy draft.account_type) then
    (s, some "Order draft is incomplete. Please start again.")
  else if !(truthy draft.details_text) && !(truthy draft.details_file_id) then
    ({ s with ud := { s.ud with mode := some "order_details" } },
     some "Please send details first (text or photo).")
  else
    let r := save_order s.db u.id u.username (draft.product.getD "")
      (draft.duration.getD "") (draft.account_type.getD "")
      draft.details_text draft.details_file_id s.clock
    ({ s with db := r.1, ud := clear_flow s.ud },
     some ("✅ Order placed! Order ID: " ++ toString r.2))

/-- Embedding of `on_message` (src/bot.py lines 530-582), routing a free-text
or photo message by the current mode marker. -/
def on_message (u : User) (text : Option String) (photo : List String)
    (s : BotState) : BotState × Option String :=
  if s.ud.mode == some "support" then
    let ticket_text := pyStrip (text.getD "")
    if ticket_text == "" then (s, some "Please send your issue as text.")
    else
      let r := save_ticket s.db u.id u.username ticket_text s.clock
      ({ s with db := r.1, ud := { s.ud with mode := none } },
       some ("✅ Support request sent! Ticket #" ++ toString r.2))
  else if s.ud.mode == some "order_details" then
    let p := get_draft s.ud
    if truthy text then
      let details := pyStrip (text.getD "")
      if details == "" then
        ({ s with ud := p.2 },
         some "Details cannot be empty. Send text or upload photo.")
      else
        let d1 : Draft :=
          { p.1 with details_text := some details, details_file_id := none }
        ({ s with ud := { p.2 with draft := some d1, mode := none } },
         some (render_order_summary d1))
    else
      match photo.getLast? with
      | some fid =>
        let d1 : Draft :=
          { p.1 with details_text := none, details_file_id := some fid }
        ({ s with ud := { p.2 with draft := some d1, mode := none } },
         some (render_order_summary d1))
      | none =>
        ({ s with ud := p.2 },
         some "Please send details as text or upload a photo.")
  else
    (s, some "Use /start to open the main menu.")

/-- One dispatch step: route an event to its handler, following the handler
registrations of `build_application`. -/
def step (u : User) (ev : Event) (s : BotState) : BotState × Option String :=
  match ev with
  | .start => start s
  | .menu action => menu_router u action s
  | .back target => back_router target s
  | .product name => on_product name s
  | .duration label => on_duration label s
  | .account name => on_account name s
  | .confirm => on_confirm u s
  | .message text photo => on_message u text photo s

/-- Run a trace of (user, event) pairs from a state. -/
def exec (s : BotState) : List (User × Event) → BotState
  | [] => s
  | e :: rest => exec (step e.1 e.2 s).1 rest

/-- A state is reachable when some trace of events produces it from the
initial (empty) state. -/
def Reachable (s : BotState) : Prop := ∃ trace, s = exec {} trace

/-- Modelled from the spec: the point lookup `getOrder(id) → Order|absent` of
the Order Store (spec section 4.1).  No such function appears in src/bot.py,
whose `build_application` registers no admin handler, so the admin-side
operations are taken from the spec's words. -/
def getOrder (db : DB) (oid : Nat) : Option Order :=
  db.orders.find? (fun o => o.id == oid)

/-- Modelled from the spec: `updateStatus(id, status)` of the Order Store
(spec section 4.1): sets the status of the order with the given id. -/
def updateStatus (db : DB) (oid : Nat) (st : String) : DB :=
  { db with
    orders := db.orders.map (fun o => if o.id = oid then { o with status := st } else o) }

/-- The terminal statuses of an order (spec section 3). -/
def terminalStatuses : List String := ["approved", "rejected"]

/-- An admin decision on an order. -/
inductive AdminAction where
  | approve
  | reject
deriving DecidableEq

/-- The terminal status an admin action maps to (spec section 4.3). -/
def actionStatus : AdminAction → String
  | .approve => "approved"
  | .reject => "rejected"

/-- Modelled from the spec: the Admin Gate (spec section 4.3), absent from
src/bot.py.  It fails closed (no state change) when no admin principal is
configured or the actor is not the configured principal; on success it maps
the action to a terminal status and calls `updateStatus`.  Terminal statuses
are immutable (spec section 3 invariant), so only a `pending` order is
transitioned. -/
def admin_decision (configuredAdmin : Option Nat) (actor : Nat)
    (act : AdminAction) (oid : Nat) (db : DB) : DB :=
  match configuredAdmin with
  | none => db
  | some adminId =>
    if actor = adminId then
      match getOrder db oid with
      | some o =>
        if o.status = "pending" then updateStatus db oid (actionStatus act) else db
      | none => db
    else db

/-- One admin-gate invocation: the (possibly missing) configured principal,
the acting principal, the action, and the target order id. -/
structure AdminCall where
  cfg : Option Nat
  actor : Nat
  act : AdminAction
  oid : Nat
deriving DecidableEq

/-- A system-level operation: either a customer event handled by the bot's
dispatcher or an admin-gate invocation. -/
inductive SysOp where
  | bot (u : User) (ev : Event)
  | admin (c : AdminCall)
deriving DecidableEq

/-- System-level step: customer events go through `step`, admin calls through
the spec-modelled `admin_decision`. -/
def sysStep (s : BotState) : SysOp → BotState
  | .bot u ev => (step u ev s).1
  | .admin c => { s with db := admin_decision c.cfg c.actor c.act c.oid s.db }

/-- Run a list of system-level operations. -/
def sysRun (s : BotState) (ops : List SysOp) : BotState := ops.foldl sysStep s

/-- The prefix-chain property of a draft: a set duration has a set product
before it, and a set account type has a set duration before it. -/
def DraftChainInv (d : Draft) : Prop :=
  (d.duration.isSome → d.product.isSome) ∧
  (d.account_type.isSome → d.duration.isSome)

/-- A concrete user for closed instances. -/
def w0 : User := ⟨1, none⟩

/-- Concrete state sitting in detail-capture mode with an empty draft. -/
def c5state : BotState :=
  { ud := { draft := some emptyDraft, mode := some "order_details" } }

/-- Concrete state with a draft holding only a selected product. -/
def c4state : BotState :=
  { ud := { draft := some { product := some "Netflix" } } }

/-- Concrete event trace: a stale `back:details` click followed by a text
message. -/
def c9trace : List (User × Event) :=
  [(⟨1, none⟩, .back "details"), (⟨1, none⟩, .message (some "hi") [])]

/-- The state the trace `c9trace` reaches from the initial state. -/
def c9state : BotState := exec {} c9trace

/-- Concrete pending order used in closed admin-gate instances. -/
def c2order : Order :=
  { id := 5, user_id := 7, username := none, product := "Spotify",
    duration := "1 day", account_type := "Basic", details_text := some "x",
    details_file_id := none, status := "pending", created_at := 0 }

/-- The same order after approval. -/
def c2orderA : Order := { c2order with status := "approved" }

/-- Concrete database holding the pending order. -/
def c2db : DB := { orders := [c2order], nextOrderId := 6 }

/-- Concrete database holding the approved order. -/
def c2dbA : DB := { orders := [c2orderA], nextOrderId := 6 }

/-- Concrete database holding 21 orders for user 1. -/
def c7db : DB :=
  { orders := (List.range 21).map (fun i =>
      { id := i + 1, user_id := 1, username := none, product := "Spotify",
        duration := "1 day", account_type := "Basic", details_text := some "x",
        details_file_id := none, status := "pending", created_at := 0 }),
    nextOrderId := 22 }

/-! Basic facts about truthiness and the message handler. -/

theorem truthy_some_iff {t : String} : truthy (some t) = true ↔ t ≠ "" := by
  simp [truthy, bne_iff_ne]

theorem truthy_none : truthy none = false := by decide

/-- With no mode marker set, a free-form message only draws the generic menu
reply and leaves the whole state untouched. -/
theorem on_message_no_mode (u : User) (text : Option String)
    (photo : List String) (s : BotState) (hm : s.ud.mode = none) :
    on_message u text photo s = (s, some "Use /start to open the main menu.") := by
  simp [on_message, hm]

/-- Successful consumption of a support message: the ticket is stored and the
mode marker is popped. -/
theorem on_message_support_ok (u : User) (text : Option String)
    (photo : List String) (s : BotState) (hm : s.ud.mode = some "support")
    (hne : pyStrip (text.getD "") ≠ "") :
    on_message u text photo s =
      ({ s with
          db := (save_ticket s.db u.id u.username (pyStrip (text.getD "")) s.clock).1,
          ud := { s.ud with mode := none } },
       some ("✅ Support request sent! Ticket #" ++
         toString (save_ticket s.db u.id u.username (pyStrip (text.getD "")) s.clock).2)) := by
  have hb : ((pyStrip (text.getD "") == "") = false) := beq_eq_false_iff_ne.mpr hne
  simp [on_message, hm, hb]

/-- Successful text detail capture: the trimmed text is recorded, the photo
reference is cleared, and the mode marker is popped. -/
theorem on_message_details_text_ok (u : User) (text : Option String)
    (photo : List String) (s : BotState) (d : Draft)
    (hm : s.ud.mode = some "order_details") (hd : s.ud.draft = some d)
    (htr : truthy text = true) (htrim : pyStrip (text.getD "") ≠ "") :
    on_message u text photo s =
      ({ s with ud :=
          { s.ud with
            draft := some { d with details_text := some (pyStrip (text.getD "")),
                                   details_file_id := none },
            mode := none } },
       some (render_order_summary
         { d with details_text := some (pyStrip (text.getD "")),
                  details_file_id := none })) := by
  have hb : ((pyStrip (text.getD "") == "") = false) := beq_eq_false_iff_ne.mpr htrim
  simp [on_message, hm, get_draft, hd, htr, hb]

/-- Successful photo detail capture: the last photo's file id is recorded, the
text detail is cleared, and the mode marker is popped. -/
theorem on_message_details_photo_ok (u : User) (text : Option String)
    (photo : List String) (s : BotState) (d : Draft) (fid : String)
    (hm : s.ud.mode = some "order_details") (hd : s.ud.draft = some d)
    (htr : truthy text = false) (hph : photo.getLast? = some fid) :
    on_message u text photo s =
      ({ s with ud :=
          { s.ud with
            draft := some { d with details_text := none,
                                   details_file_id := some fid },
            mode := none } },
       some (render_order_summary
         { d with details_text := none, details_file_id := some fid })) := by
  simp [on_message, hm, get_draft, hd, htr, hph]

/-- A successful catalog lookup pins down its (product, table) pair as a
member of the catalog. -/
theorem mem_catalog_of_find (p : String) (tbl : List (String × Nat))
    (h : catalogDurations p = some tbl) : (p, tbl) ∈ CATALOG := by
  unfold catalogDurations at h
  cases hf : CATALOG.find? (fun e => e.1 == p) with
  | none => rw [hf] at h; cases h
  | some e =>
    rw [hf] at h
    have hpred := List.find?_some hf
    have hmem := List.mem_of_find?_eq_some hf
    have he1 : e.1 = p := by simpa using hpred
    have he2 : e.2 = tbl := by simpa using h
    have he : e = (p, tbl) := Prod.ext he1 he2
    rwa [he] at hmem

/-- Every catalog entry has a non-empty product name and no empty duration
label. -/
theorem catalog_entry_facts (p : String) (tbl : List (String × Nat))
    (h : (p, tbl) ∈ CATALOG) : p ≠ "" ∧ durationPrice tbl "" = none := by
  simp only [CATALOG, List.mem_cons, List.not_mem_nil, or_false,
    Prod.mk.injEq] at h
  rcases h with ⟨h1, h2⟩ | ⟨h1, h2⟩ | ⟨h1, h2⟩ | ⟨h1, h2⟩ <;>
    subst h1 <;> subst h2 <;> exact ⟨by decide, by decide⟩

/-- Every account type is a non-empty string found by `list.contains`. -/
theorem account_facts (acct : String) (h : acct ∈ ACCOUNT_TYPES) :
    acct ≠ "" ∧ ACCOUNT_TYPES.contains acct = true := by
  fin_cases h <;> exact ⟨by decide, by decide⟩

/-! Claim theorems. -/

/-- C6: for every user state, a "home" event removes both the draft and the
mode marker (returning the user to Idle), leaves the database untouched, and
re-renders the welcome menu. -/
theorem claim_C6 (u : User) (s : BotState) :
    (step u (.menu "menu:home") s).1.ud.draft = none ∧
    (step u (.menu "menu:home") s).1.ud.mode = none ∧
    (step u (.menu "menu:home") s).1.db = s.db ∧
    (step u (.menu "menu:home") s).2 = some WELCOME_TEXT := by
  simp [step, menu_router, clear_flow]

/-- C8: with the mode marker unset, a free-text (or photo) message yields only
the generic "use the menu" reply and changes nothing: neither draft, nor
mode, nor any persistent store. -/
theorem claim_C8 (u : User) (text : Option String) (photo : List String)
    (s : BotState) (hm : s.ud.mode = none) :
    step u (.message text photo) s =
      (s, some "Use /start to open the main menu.") := by
  simpa [step] using on_message_no_mode u text photo s hm

/-- Closed instance of C8 at a concrete state and message. -/
theorem claim_C8_witness :
    (({} : BotState)).ud.mode = none ∧
    step w0 (.message (some "hello") []) {} =
      ({}, some "Use /start to open the main menu.") :=
  ⟨rfl, claim_C8 w0 (some "hello") [] {} rfl⟩

/-- C10: the mode marker is one-shot.  After a message is successfully
consumed in support mode (ticket saved) or in detail-capture mode (details
recorded), the mode marker is removed, so the immediately following free-form
message receives the generic menu reply and changes nothing. -/
theorem claim_C10 (u : User) (text : Option String) (photo : List String)
    (s : BotState) :
    (s.ud.mode = some "support" → pyStrip (text.getD "") ≠ "" →
      ((step u (.message text photo) s).1.ud.mode = none ∧
       (step u (.message text photo) s).1.ud.draft = s.ud.draft ∧
       ∀ (u2 : User) (t2 : Option String) (ph2 : List String),
         step u2 (.message t2 ph2) (step u (.message text photo) s).1 =
           ((step u (.message text photo) s).1,
            some "Use /start to open the main menu."))) ∧
    (s.ud.mode = some "order_details" → ∀ (d : Draft), s.ud.draft = some d →
      ((truthy text = true ∧ pyStrip (text.getD "") ≠ "") ∨
       (truthy text = false ∧ photo.getLast?.isSome)) →
      ((step u (.message text photo) s).1.ud.mode = none ∧
       ∀ (u2 : User) (t2 : Option String) (ph2 : List String),
         step u2 (.message t2 ph2) (step u (.message text photo) s).1 =
           ((step u (.message text photo) s).1,
            some "Use /start to open the main menu."))) := by
  constructor
  · intro hm hne
    rw [show step u (.message text photo) s = on_message u text photo s from rfl,
      on_message_support_ok u text photo s hm hne]
    exact ⟨rfl, rfl, fun u2 t2 ph2 => by
      simpa [step] using on_message_no_mode u2 t2 ph2 _ rfl⟩
  · intro hm d hd hcase
    rcases hcase with ⟨htr, htrim⟩ | ⟨htr, hph⟩
    · rw [show step u (.message text photo) s = on_message u text photo s from rfl,
        on_message_details_text_ok u text photo s d hm hd htr htrim]
      exact ⟨rfl, fun u2 t2 ph2 => by
        simpa [step] using on_message_no_mode u2 t2 ph2 _ rfl⟩
    · obtain ⟨fid, hfid⟩ := Option.isSome_iff_exists.mp hph
      rw [show step u (.message text photo) s = on_message u text photo s from rfl,
        on_message_details_photo_ok u text photo s d fid hm hd htr hfid]
      exact ⟨rfl, fun u2 t2 ph2 => by
        simpa [step] using on_message_no_mode u2 t2 ph2 _ rfl⟩

/-- C3: the confirm event never creates an order when a required field is
missing or empty, or when both detail fields are missing: the whole database
(hence the count of orders for every user) is unchanged. -/
theorem claim_C3 (u : User) (s : BotState)
    (h : truthy (s.ud.draft.getD emptyDraft).product = false ∨
         truthy (s.ud.draft.getD emptyDraft).duration = false ∨
         truthy (s.ud.draft.getD emptyDraft).account_type = false ∨
         (truthy (s.ud.draft.getD emptyDraft).details_text = false ∧
          truthy (s.ud.draft.getD emptyDraft).details_file_id = false)) :
    (step u .confirm s).1.db = s.db ∧
    (∀ uid : Nat, get_profile_counts (step u .confirm s).1.db uid =
      get_profile_counts s.db uid) := by
  have hdb : (step u .confirm s).1.db = s.db := by
    simp only [step, on_confirm]
    split_ifs with h1 h2
    · rfl
    · rfl
    · exfalso
      rcases h with h | h | h | ⟨ha, hb⟩ <;> simp_all
  exact ⟨hdb, fun uid => by rw [hdb]⟩

/-- Closed instance of C3 at the empty state, whose draft lacks a product. -/
theorem claim_C3_witness :
    truthy ((({} : BotState)).ud.draft.getD emptyDraft).product = false ∧
    ((step w0 .confirm {}).1.db = ({} : BotState).db ∧
     ∀ uid : Nat, get_profile_counts (step w0 .confirm {}).1.db uid =
       get_profile_counts ({} : BotState).db uid) :=
  ⟨by decide, claim_C3 w0 {} (Or.inl (by decide))⟩

/-- C4: a product pick whose product is not in the catalog, and a duration
pick whose duration is not valid for the drafted product (or whose draft has
no valid product), leave the draft contents, the mode and the database exactly
as they were and re-render the prior step's prompt.  When a draft dictionary
already exists the whole state is literally unchanged; when none exists the
handlers' `get_draft` call materialises an empty draft whose contents equal
the prior (empty) view. -/
theorem claim_C4 (u : User) (s : BotState) (name label : String) :
    ((catalogDurations name).isNone = true →
      step u (.product name) s =
        (s, some "Invalid product. Please choose again.")) ∧
    (truthy (s.ud.draft.getD emptyDraft).product = false ∨
        catalogDurations ((s.ud.draft.getD emptyDraft).product.getD "") = none →
      ((step u (.duration label) s).1.ud.draft.getD emptyDraft =
          s.ud.draft.getD emptyDraft ∧
       (step u (.duration label) s).1.ud.mode = s.ud.mode ∧
       (step u (.duration label) s).1.db = s.db ∧
       (s.ud.draft.isSome = true → (step u (.duration label) s).1 = s) ∧
       (step u (.duration label) s).2 = some "Please select a product first.")) ∧
    (∀ tbl, truthy (s.ud.draft.getD emptyDraft).product = true →
      catalogDurations ((s.ud.draft.getD emptyDraft).product.getD "") = some tbl →
      (durationPrice tbl label).isNone = true →
      ((step u (.duration label) s).1.ud.draft.getD emptyDraft =
          s.ud.draft.getD emptyDraft ∧
       (step u (.duration label) s).1.ud.mode = s.ud.mode ∧
       (step u (.duration label) s).1.db = s.db ∧
       (s.ud.draft.isSome = true → (step u (.duration label) s).1 = s) ∧
       (step u (.duration label) s).2 =
         some "Invalid duration. Please choose again.")) := by
  refine ⟨fun h => by simp [step, on_product, h], fun h => ?_, fun tbl htr hcat hdp => ?_⟩
  · cases hd : s.ud.draft with
    | none =>
      have : truthy (emptyDraft.product) = false := by decide
      simp_all [step, on_duration, get_draft, emptyDraft]
    | some d =>
      rw [hd] at h
      rcases h with h | h
      · simp_all [step, on_duration, get_draft]
      · by_cases htr : truthy d.product
        · simp_all [step, on_duration, get_draft]
        · simp_all [step, on_duration, get_draft]
  · cases hd : s.ud.draft with
    | none =>
      rw [hd] at htr
      exact absurd htr (by decide)
    | some d =>
      rw [hd] at htr hcat
      simp_all [step, on_duration, get_draft]

/-- Closed instance of C4: an unknown product is rejected without any state
change, and an unknown duration for a drafted product is likewise rejected. -/
theorem claim_C4_witness :
    ((catalogDurations "Bogus").isNone = true ∧
     step w0 (.product "Bogus") c4state =
       (c4state, some "Invalid product. Please choose again.")) ∧
    (truthy (c4state.ud.draft.getD emptyDraft).product = true ∧
     catalogDurations ((c4state.ud.draft.getD emptyDraft).product.getD "") =
       some [("1 day", 5), ("7 days", 20), ("30 days", 60)] ∧
     (durationPrice [("1 day", 5), ("7 days", 20), ("30 days", 60)] "2 days").isNone = true ∧
     ((step w0 (.duration "2 days") c4state).1.ud.draft.getD emptyDraft =
        c4state.ud.draft.getD emptyDraft ∧
      (step w0 (.duration "2 days") c4state).1.ud.mode = c4state.ud.mode ∧
      (step w0 (.duration "2 days") c4state).1.db = c4state.db ∧
      (c4state.ud.draft.isSome = true → (step w0 (.duration "2 days") c4state).1 = c4state) ∧
      (step w0 (.duration "2 days") c4state).2 =
        some "Invalid duration. Please choose again.")) :=
  ⟨⟨by decide, (claim_C4 w0 c4state "Bogus" "x").1 (by decide)⟩,
   ⟨by decide, by decide, by decide,
    (claim_C4 w0 c4state "x" "2 days").2.2 [("1 day", 5), ("7 days", 20), ("30 days", 60)]
      (by decide) (by decide) (by decide)⟩⟩

/-- C5 as stated is false: in detail-capture mode, the concrete message whose
text is the non-empty string " " does not set `details_text`; the handler
re-prompts and leaves the draft unchanged. -/
theorem claim_C5_counterexample :
    c5state.ud.mode = some "order_details" ∧
    truthy (some " ") = true ∧
    (step w0 (.message (some " ") []) c5state).1.ud.draft = some emptyDraft ∧
    ((step w0 (.message (some " ") []) c5state).1.ud.draft.getD
      emptyDraft).details_text = none ∧
    (step w0 (.message (some " ") []) c5state).2 =
      some "Details cannot be empty. Send text or upload photo." := by
  refine ⟨rfl, by decide, ?_, ?_, ?_⟩ <;> decide

/-- C5 amended: in detail-capture mode, a message whose text is non-empty
after stripping whitespace sets `details_text` to the stripped text and
clears `details_file_id`; a photo message sets `details_file_id` to the last
photo's file id and clears `details_text` (so after any capture at most one
of the two is set); a message with truthy text that strips to nothing, or
with neither truthy text nor a photo, re-prompts and leaves the state
unchanged. -/
theorem claim_C5 (u : User) (text : Option String) (photo : List String)
    (s : BotState) (d : Draft) (hm : s.ud.mode = some "order_details")
    (hd : s.ud.draft = some d) :
    (truthy text = true → pyStrip (text.getD "") ≠ "" →
      ((step u (.message text photo) s).1.ud.draft =
         some { d with details_text := some (pyStrip (text.getD "")),
                       details_file_id := none } ∧
       (step u (.message text photo) s).1.ud.mode = none)) ∧
    (truthy text = true → pyStrip (text.getD "") = "" →
      ((step u (.message text photo) s).1 = s ∧
       (step u (.message text photo) s).2 =
         some "Details cannot be empty. Send text or upload photo.")) ∧
    (∀ fid, truthy text = false → photo.getLast? = some fid →
      ((step u (.message text photo) s).1.ud.draft =
         some { d with details_text := none, details_file_id := some fid } ∧
       (step u (.message text photo) s).1.ud.mode = none)) ∧
    (truthy text = false → photo = [] →
      ((step u (.message text photo) s).1 = s ∧
       (step u (.message text photo) s).2 =
         some "Please send details as text or upload a photo.")) := by
  refine ⟨fun htr htrim => ?_, fun htr htrim => ?_, fun fid htr hph => ?_,
    fun htr hph => ?_⟩
  · rw [show step u (.message text photo) s = on_message u text photo s from rfl,
      on_message_details_text_ok u text photo s d hm hd htr htrim]
    exact ⟨rfl, rfl⟩
  · have hb : ((pyStrip (text.getD "") == "") = true) := beq_iff_eq.mpr htrim
    simp [step, on_message, hm, get_draft, hd, htr, hb]
  · rw [show step u (.message text photo) s = on_message u text photo s from rfl,
      on_message_details_photo_ok u text photo s d fid hm hd htr hph]
    exact ⟨rfl, rfl⟩
  · simp [step, on_message, hm, get_draft, hd, htr, hph]

/-- Closed instance of the amended C5: capturing the text "ref123" records it
and clears the photo reference. -/
theorem claim_C5_witness :
    c5state.ud.mode = some "order_details" ∧
    c5state.ud.draft = some emptyDraft ∧
    truthy (some "ref123") = true ∧
    pyStrip ((some "ref123").getD "") ≠ "" ∧
    ((step w0 (.message (some "ref123") []) c5state).1.ud.draft =
       some { emptyDraft with details_text := some (pyStrip ((some "ref123").getD "")),
                              details_file_id := none } ∧
     (step w0 (.message (some "ref123") []) c5state).1.ud.mode = none) :=
  ⟨rfl, rfl, by decide, by decide,
   (claim_C5 w0 (some "ref123") [] c5state emptyDraft rfl rfl).1
     (by decide) (by decide)⟩

/-- C1 as stated is false in its price part: the claim requires the created
Order row to carry a price snapshotted from the catalog, but the `orders`
table created by `init_db` has no price column at all (the spec's schema
lists one). -/
theorem claim_C1_counterexample :
    "price" ∈ specOrdersColumns ∧ "price" ∉ ordersTableColumns := by
  decide

/-- C1 amended: for every (product, duration) pair valid in the catalog,
selecting them in sequence, completing the account-type and details steps,
and confirming creates exactly one new Order row with status 'pending'
carrying the draft's fields; no price column is stored (so no stored price
exists for catalog changes to alter), and the price shown by the summary is
the catalog's price for the pair. -/
theorem claim_C1 (u : User) (s0 : BotState) (p dur acct txt : String)
    (tbl : List (String × Nat)) (n : Nat)
    (hp : catalogDurations p = some tbl)
    (hd : durationPrice tbl dur = some n)
    (ha : acct ∈ ACCOUNT_TYPES)
    (ht : txt ≠ "") (ht2 : pyStrip txt ≠ "") :
    exec s0 [(u, .menu "menu:order"), (u, .product p), (u, .duration dur),
             (u, .account acct), (u, .message (some txt) []), (u, .confirm)] =
      { s0 with
        db := { s0.db with
          orders := s0.db.orders ++
            [{ id := s0.db.nextOrderId, user_id := u.id, username := u.username,
               product := p, duration := dur, account_type := acct,
               details_text := some (pyStrip txt), details_file_id := none,
               status := "pending", created_at := s0.clock }],
          nextOrderId := s0.db.nextOrderId + 1 },
        ud := {} } ∧
    summaryPrice p dur = "$" ++ toString n ∧
    "price" ∉ ordersTableColumns := by
  obtain ⟨hpne, -⟩ := catalog_entry_facts p tbl (mem_catalog_of_find p tbl hp)
  have hdne : dur ≠ "" := by
    intro hcon
    obtain ⟨-, hz⟩ := catalog_entry_facts p tbl (mem_catalog_of_find p tbl hp)
    rw [hcon, hz] at hd
    cases hd
  obtain ⟨hane, hacont⟩ := account_facts acct ha
  have htp : truthy (some p) = true := truthy_some_iff.mpr hpne
  have htd : truthy (some dur) = true := truthy_some_iff.mpr hdne
  have hta : truthy (some acct) = true := truthy_some_iff.mpr hane
  have htt : truthy (some txt) = true := truthy_some_iff.mpr ht
  have htstrip : truthy (some (pyStrip txt)) = true := truthy_some_iff.mpr ht2
  have hb : ((pyStrip txt == "") = false) := beq_eq_false_iff_ne.mpr ht2
  constructor
  · simp [exec, step, menu_router, on_product, on_duration, on_account,
      on_confirm, on_message, get_draft, clear_flow, save_order, emptyDraft,
      hp, hd, hacont, ha, htp, htd, hta, htt, htstrip, hb]
  · constructor
    · simp [summaryPrice, catalogPrice, hp, hd]
    · decide

/-- Closed instance of the amended C1: the full Netflix 30-day flow from the
empty state creates exactly the one expected pending order. -/
theorem claim_C1_witness :
    catalogDurations "Netflix" = some [("1 day", 5), ("7 days", 20), ("30 days", 60)] ∧
    durationPrice [("1 day", 5), ("7 days", 20), ("30 days", 60)] "30 days" = some 60 ∧
    "Premium" ∈ ACCOUNT_TYPES ∧
    ("ref123" ≠ "" ∧ pyStrip "ref123" ≠ "") ∧
    (exec {} [(w0, .menu "menu:order"), (w0, .product "Netflix"),
              (w0, .duration "30 days"), (w0, .account "Premium"),
              (w0, .message (some "ref123") []), (w0, .confirm)] =
       { ({} : BotState) with
         db := { ({} : BotState).db with
           orders := ({} : BotState).db.orders ++
             [{ id := ({} : BotState).db.nextOrderId, user_id := w0.id,
                username := w0.username, product := "Netflix",
                duration := "30 days", account_type := "Premium",
                details_text := some (pyStrip "ref123"), details_file_id := none,
                status := "pending", created_at := ({} : BotState).clock }],
           nextOrderId := ({} : BotState).db.nextOrderId + 1 },
         ud := {} } ∧
     summaryPrice "Netflix" "30 days" = "$" ++ toString 60 ∧
     "price" ∉ ordersTableColumns) :=
  ⟨by decide, by decide, by decide, ⟨by decide, by decide⟩,
   claim_C1 w0 {} "Netflix" "30 days" "Premium" "ref123"
     [("1 day", 5), ("7 days", 20), ("30 days", 60)] 60 (by decide) (by decide)
     (by decide) (by decide) (by decide)⟩

/-- C7: for a database whose order ids are pairwise distinct (as the
autoincrement primary key guarantees), `get_user_orders` returns at most 20
rows, all belonging to the requested user, with ids strictly descending. -/
theorem claim_C7 (db : DB) (uid : Nat)
    (hnd : (db.orders.map Order.id).Nodup) :
    (get_user_orders db uid).length ≤ 20 ∧
    (∀ o ∈ get_user_orders db uid, o.user_id = uid) ∧
    ((get_user_orders db uid).map Order.id).Sorted (· > ·) := by
  have hfl : List.Sublist (db.orders.filter (fun o => o.user_id == uid)) db.orders :=
    List.filter_sublist _
  have hsorted := List.sorted_insertionSort newerFirst
    (db.orders.filter (fun o => o.user_id == uid))
  have hperm := List.perm_insertionSort newerFirst
    (db.orders.filter (fun o => o.user_id == uid))
  refine ⟨List.length_take_le _ _, ?_, ?_⟩
  · intro o ho
    have h1 : o ∈ (db.orders.filter (fun o => o.user_id == uid)).insertionSort newerFirst :=
      List.mem_of_mem_take ho
    have h2 := (List.mem_insertionSort newerFirst).mp h1
    have h3 := List.mem_filter.mp h2
    simpa using h3.2
  · have hnodl : ((db.orders.filter (fun o => o.user_id == uid)).map Order.id).Nodup :=
      hnd.sublist (hfl.map Order.id)
    have hnods : (((db.orders.filter (fun o => o.user_id == uid)).insertionSort
        newerFirst).map Order.id).Nodup :=
      ((hperm.map Order.id).nodup_iff).mpr hnodl
    have hne := List.pairwise_map.mp hnods
    have hgt : ((db.orders.filter (fun o => o.user_id == uid)).insertionSort
        newerFirst).Pairwise (fun a b => a.id > b.id) := by
      refine (hsorted.and hne).imp ?_
      rintro a b ⟨hle, hneq⟩
      exact lt_of_le_of_ne hle (Ne.symm hneq)
    have htake : (get_user_orders db uid).Pairwise (fun a b => a.id > b.id) :=
      hgt.sublist (List.take_sublist _ _)
    exact List.pairwise_map.mpr htake

/-- Closed instance of C7 on a database with 21 orders for user 1. -/
theorem claim_C7_witness :
    (c7db.orders.map Order.id).Nodup ∧
    ((get_user_orders c7db 1).length ≤ 20 ∧
     (∀ o ∈ get_user_orders c7db 1, o.user_id = 1) ∧
     ((get_user_orders c7db 1).map Order.id).Sorted (· > ·)) :=
  ⟨by decide, claim_C7 c7db 1 (by decide)⟩

/-- Closed instance of C10: a support ticket consumed at a concrete state,
then a follow-up message that only gets the generic reply. -/
theorem claim_C10_witness :
    ({ ud := { mode := some "support" } } : BotState).ud.mode = some "support" ∧
    pyStrip ((some "help me").getD "") ≠ "" ∧
    ((step w0 (.message (some "help me") [])
        ({ ud := { mode := some "support" } } : BotState)).1.ud.mode = none ∧
     (step w0 (.message (some "help me") [])
        ({ ud := { mode := some "support" } } : BotState)).1.ud.draft =
       ({ ud := { mode := some "support" } } : BotState).ud.draft ∧
     ∀ (u2 : User) (t2 : Option String) (ph2 : List String),
       step u2 (.message t2 ph2)
           (step w0 (.message (some "help me") [])
             ({ ud := { mode := some "support" } } : BotState)).1 =
         ((step w0 (.message (some "help me") [])
             ({ ud := { mode := some "support" } } : BotState)).1,
          some "Use /start to open the main menu.")) :=
  ⟨rfl, by decide,
   (claim_C10 w0 (some "help me") [] { ud := { mode := some "support" } }).1
     rfl (by decide)⟩



theorem get_draft_fst (ud : UserData) :
    (get_draft ud).1 = ud.draft.getD emptyDraft := by
  cases h : ud.draft <;> simp [get_draft, h]

theorem get_draft_snd_draft (ud : UserData) :
    (get_draft ud).2.draft = some (ud.draft.getD emptyDraft) := by
  cases h : ud.draft <;> simp [get_draft, h]

theorem get_draft_snd_mode (ud : UserData) :
    (get_draft ud).2.mode = ud.mode := by
  cases h : ud.draft <;> simp [get_draft, h]

theorem isSome_of_truthy (o : Option String) (h : truthy o = true) :
    o.isSome := by
  cases o with
  | none => simp [truthy] at h
  | some t => rfl

theorem draft_chain_step (u : User) (ev : Event) (s : BotState)
    (h : DraftChainInv (s.ud.draft.getD emptyDraft)) :
    DraftChainInv ((step u ev s).1.ud.draft.getD emptyDraft) := by
  have hempty : DraftChainInv emptyDraft := by constructor <;> intro hx <;> cases hx
  cases ev with
  | start => simpa [step, start, clear_flow] using hempty
  | menu a =>
    simp only [step, menu_router]
    split_ifs <;> simp_all [clear_flow]
  | back t =>
    simp only [step, back_router]
    split_ifs <;>
      simp_all [get_draft_snd_draft, get_draft_snd_mode, get_draft_fst]
  | product name =>
    simp only [step, on_product]
    split_ifs with h1
    · simpa using h
    · refine ⟨?_, ?_⟩ <;> intro hx <;> simp_all
  | duration label =>
    simp only [step, on_duration]
    split_ifs with h1
    · simpa [get_draft_snd_draft] using h
    · split
      · simpa [get_draft_snd_draft] using h
      · split_ifs with h2
        · simpa [get_draft_snd_draft] using h
        · have hp := isSome_of_truthy _ (by simpa using h1)
          refine ⟨?_, ?_⟩ <;> intro hx <;> simp_all [get_draft_fst]
  | account name =>
    simp only [step, on_account]
    split_ifs with h1 h2
    · simpa using h
    · simpa [get_draft_snd_draft] using h
    · simp only [Bool.not_eq_true, Bool.or_eq_false_iff, Bool.not_eq_false'] at h2
      obtain ⟨hp, hd⟩ := h2
      rw [get_draft_fst] at hp hd
      have hps := isSome_of_truthy _ hp
      have hds := isSome_of_truthy _ hd
      refine ⟨?_, ?_⟩ <;> intro hx <;> simp_all [get_draft_fst]
  | confirm =>
    simp only [step, on_confirm]
    split_ifs <;> simp_all [clear_flow]
  | message text photo =>
    simp only [step, on_message]
    by_cases h1 : (s.ud.mode == some "support") = true
    · rw [if_pos h1]
      split_ifs <;> simpa using h
    · rw [if_neg h1]
      by_cases h2 : (s.ud.mode == some "order_details") = true
      · rw [if_pos h2]
        by_cases h3 : truthy text = true
        · rw [if_pos h3]
          by_cases h4 : (pyStrip (text.getD "") == "") = true
          · rw [if_pos h4]
            simpa [get_draft_snd_draft] using h
          · rw [if_neg h4]
            obtain ⟨hinv1, hinv2⟩ := h
            refine ⟨?_, ?_⟩ <;> intro hx <;> simp_all [get_draft_fst]
        · rw [if_neg h3]
          cases hph : photo.getLast? with
          | some fid =>
            simp only [hph]
            obtain ⟨hinv1, hinv2⟩ := h
            refine ⟨?_, ?_⟩ <;> intro hx <;> simp_all [get_draft_fst]
          | none =>
            simp only [hph]
            simpa [get_draft_snd_draft] using h
      · rw [if_neg h2]
        simpa using h


theorem exec_chain_aux (trace : List (User × Event)) :
    ∀ s : BotState, DraftChainInv (s.ud.draft.getD emptyDraft) →
      DraftChainInv ((exec s trace).ud.draft.getD emptyDraft) := by
  induction trace with
  | nil => exact fun s h => h
  | cons e t ih =>
    exact fun s h => ih ((step e.1 e.2 s).1) (draft_chain_step e.1 e.2 s h)

/-- C9 as stated is false in its invariant part: the reachable state
`c9state` (reached by a stale back-to-details click followed by a text
message) has a draft with `details_text` set but `account_type` unset, so a
set field does not always imply its logical predecessor is set. -/
theorem claim_C9_counterexample :
    Reachable c9state ∧
    (c9state.ud.draft.getD emptyDraft).details_text.isSome = true ∧
    (c9state.ud.draft.getD emptyDraft).account_type = none :=
  ⟨⟨c9trace, rfl⟩, by decide, by decide⟩

/-- C9 amended: a successful product pick clears every downstream field, a
successful duration pick clears account type and both detail fields, and a
successful account-type pick clears both detail fields; in every reachable
draft a set duration implies a set product and a set account type implies a
set duration (the corresponding implication for the detail fields fails, per
the counterexample, because the back-to-details event enters detail-capture
mode without validating the draft). -/
theorem claim_C9 (u : User) (s : BotState) (name label acct : String) :
    ((catalogDurations name).isNone = false →
      (step u (.product name) s).1.ud.draft =
        some { product := some name, duration := none, account_type := none,
               details_text := none, details_file_id := none }) ∧
    (truthy (s.ud.draft.getD emptyDraft).product = true →
      ∀ tbl, catalogDurations ((s.ud.draft.getD emptyDraft).product.getD "") = some tbl →
      (durationPrice tbl label).isNone = false →
      (step u (.duration label) s).1.ud.draft =
        some { (s.ud.draft.getD emptyDraft) with
                 duration := some label, account_type := none,
                 details_text := none, details_file_id := none }) ∧
    (ACCOUNT_TYPES.contains acct = true →
      truthy (s.ud.draft.getD emptyDraft).product = true →
      truthy (s.ud.draft.getD emptyDraft).duration = true →
      (step u (.account acct) s).1.ud.draft =
        some { (s.ud.draft.getD emptyDraft) with
                 account_type := some acct, details_text := none,
                 details_file_id := none }) ∧
    (∀ trace : List (User × Event),
      (((exec {} trace).ud.draft.getD emptyDraft).duration.isSome →
        ((exec {} trace).ud.draft.getD emptyDraft).product.isSome) ∧
      (((exec {} trace).ud.draft.getD emptyDraft).account_type.isSome →
        ((exec {} trace).ud.draft.getD emptyDraft).duration.isSome)) := by
  refine ⟨fun h1 => ?_, fun hp tbl hcat hdp => ?_, fun hc hp hd => ?_, fun trace => ?_⟩
  · cases hd : s.ud.draft <;> simp [step, on_product, get_draft, h1, hd]
  · cases hd : s.ud.draft with
    | none =>
      rw [hd] at hp
      exact absurd hp (by decide)
    | some d =>
      simp only [hd, Option.getD_some] at hp hcat ⊢
      simp [step, on_duration, get_draft, hd, hp, hcat, hdp]
  · cases hdr : s.ud.draft with
    | none =>
      rw [hdr] at hp
      exact absurd hp (by decide)
    | some d =>
      have hmem : acct ∈ ACCOUNT_TYPES := by simpa using hc
      simp only [hdr, Option.getD_some] at hp hd ⊢
      simp [step, on_account, get_draft, hdr, hc, hmem, hp, hd]
  · exact exec_chain_aux trace {}
      (by refine ⟨?_, ?_⟩ <;> intro hx <;> exact absurd hx (by decide))

/-- Closed instance of the amended C9: a product pick and a duration pick at
concrete states, and the chain property at a concrete reachable state. -/
theorem claim_C9_witness :
    ((catalogDurations "Spotify").isNone = false ∧
     (step w0 (.product "Spotify") c4state).1.ud.draft =
       some { product := some "Spotify", duration := none, account_type := none,
              details_text := none, details_file_id := none }) ∧
    (truthy (c4state.ud.draft.getD emptyDraft).product = true ∧
     catalogDurations ((c4state.ud.draft.getD emptyDraft).product.getD "") =
       some [("1 day", 5), ("7 days", 20), ("30 days", 60)] ∧
     (durationPrice [("1 day", 5), ("7 days", 20), ("30 days", 60)] "7 days").isNone = false ∧
     (step w0 (.duration "7 days") c4state).1.ud.draft =
       some { (c4state.ud.draft.getD emptyDraft) with
                duration := some "7 days", account_type := none,
                details_text := none, details_file_id := none }) ∧
    ((((exec {} [(w0, .menu "menu:order"), (w0, .product "Netflix"),
        (w0, .duration "1 day")]).ud.draft.getD emptyDraft).duration.isSome →
      ((exec {} [(w0, .menu "menu:order"), (w0, .product "Netflix"),
        (w0, .duration "1 day")]).ud.draft.getD emptyDraft).product.isSome) ∧
     (((exec {} [(w0, .menu "menu:order"), (w0, .product "Netflix"),
        (w0, .duration "1 day")]).ud.draft.getD emptyDraft).account_type.isSome →
      ((exec {} [(w0, .menu "menu:order"), (w0, .product "Netflix"),
        (w0, .duration "1 day")]).ud.draft.getD emptyDraft).duration.isSome)) :=
  ⟨⟨by decide, (claim_C9 w0 c4state "Spotify" "x" "x").1 (by decide)⟩,
   ⟨by decide, by decide, by decide,
    (claim_C9 w0 c4state "x" "7 days" "x").2.1 (by decide)
      [("1 day", 5), ("7 days", 20), ("30 days", 60)] (by decide) (by decide)⟩,
   (claim_C9 w0 c4state "x" "x" "x").2.2.2
     [(w0, .menu "menu:order"), (w0, .product "Netflix"), (w0, .duration "1 day")]⟩




theorem find_map_update (l : List Order) (oid : Nat) (st : String) (o : Order)
    (h : l.find? (fun x => x.id == oid) = some o) :
    (l.map (fun x => if x.id = oid then { x with status := st } else x)).find?
        (fun x => x.id == oid) = some { o with status := st } := by
  induction l with
  | nil => cases h
  | cons a t ih =>
    by_cases ha : a.id = oid
    · have hba : (a.id == oid) = true := beq_iff_eq.mpr ha
      rw [List.find?_cons, hba] at h
      obtain rfl : a = o := Option.some.inj h
      rw [List.map_cons, if_pos ha, List.find?_cons]
      have hba2 : (({ a with status := st } : Order).id == oid) = true := by
        simpa using hba
      rw [hba2]
    · have hpred : ((a.id == oid) = false) := beq_eq_false_iff_ne.mpr ha
      rw [List.find?_cons, hpred] at h
      rw [List.map_cons, if_neg ha, List.find?_cons, hpred]
      exact ih h

theorem find_map_update_other (l : List Order) (oid oid2 : Nat) (st : String)
    (h : oid ≠ oid2) :
    (l.map (fun x => if x.id = oid2 then { x with status := st } else x)).find?
        (fun x => x.id == oid) = l.find? (fun x => x.id == oid) := by
  induction l with
  | nil => rfl
  | cons a t ih =>
    by_cases ha : a.id = oid
    · have hba : (a.id == oid) = true := beq_iff_eq.mpr ha
      have hne : ¬a.id = oid2 := by rw [ha]; exact h
      rw [List.map_cons, if_neg hne, List.find?_cons, hba, List.find?_cons, hba]
    · have hpred : ((a.id == oid) = false) := beq_eq_false_iff_ne.mpr ha
      by_cases ha2 : a.id = oid2
      · rw [List.map_cons, if_pos ha2]
        have hpred2 : (({ a with status := st } : Order).id == oid) = false := by
          simpa using hpred
        rw [List.find?_cons, hpred2, List.find?_cons, hpred]
        exact ih
      · rw [List.map_cons, if_neg ha2, List.find?_cons, hpred, List.find?_cons, hpred]
        exact ih

theorem getOrder_updateStatus_self (db : DB) (oid : Nat) (st : String) (o : Order)
    (h : getOrder db oid = some o) :
    getOrder (updateStatus db oid st) oid = some { o with status := st } :=
  find_map_update db.orders oid st o h

theorem getOrder_updateStatus_other (db : DB) (oid oid2 : Nat) (st : String)
    (h : oid ≠ oid2) :
    getOrder (updateStatus db oid2 st) oid = getOrder db oid :=
  find_map_update_other db.orders oid oid2 st h

theorem getOrder_admin_preserved (db : DB) (oid : Nat) (o : Order) (c : AdminCall)
    (h : getOrder db oid = some o) (hterm : o.status ≠ "pending") :
    getOrder (admin_decision c.cfg c.actor c.act c.oid db) oid = some o := by
  unfold admin_decision
  cases hc : c.cfg with
  | none => exact h
  | some adminId =>
    dsimp only
    by_cases hact : c.actor = adminId
    · rw [if_pos hact]
      cases hg : getOrder db c.oid with
      | none => exact h
      | some o2 =>
        dsimp only
        by_cases hoid : c.oid = oid
        · subst hoid
          rw [hg] at h
          obtain rfl : o2 = o := Option.some.inj h
          rw [if_neg hterm]
          exact hg
        · by_cases hp : o2.status = "pending"
          · rw [if_pos hp]
            rw [getOrder_updateStatus_other db oid c.oid _ (Ne.symm hoid)]
            exact h
          · rw [if_neg hp]
            exact h
    · rw [if_neg hact]
      exact h

theorem step_db_orders (u : User) (ev : Event) (s : BotState) :
    (step u ev s).1.db.orders = s.db.orders ∨
    ∃ x, (step u ev s).1.db.orders = s.db.orders ++ [x] := by
  cases ev with
  | start => exact Or.inl rfl
  | menu a =>
    simp only [step, menu_router]
    split_ifs <;> exact Or.inl rfl
  | back t =>
    simp only [step, back_router]
    split_ifs <;> exact Or.inl rfl
  | product name =>
    simp only [step, on_product]
    split_ifs <;> exact Or.inl rfl
  | duration label =>
    simp only [step, on_duration]
    split_ifs
    · exact Or.inl rfl
    · split
      · exact Or.inl rfl
      · split_ifs <;> exact Or.inl rfl
  | account name =>
    simp only [step, on_account]
    split_ifs <;> exact Or.inl rfl
  | confirm =>
    simp only [step, on_confirm]
    split_ifs
    · exact Or.inl rfl
    · exact Or.inl rfl
    · exact Or.inr ⟨_, rfl⟩
  | message text photo =>
    simp only [step, on_message]
    split_ifs <;>
      first
        | exact Or.inl rfl
        | split <;> exact Or.inl rfl

theorem sysStep_preserves_found (s : BotState) (op : SysOp) (oid : Nat) (o : Order)
    (h : getOrder s.db oid = some o) (hterm : o.status ≠ "pending") :
    getOrder (sysStep s op).db oid = some o := by
  cases op with
  | bot u ev =>
    show ((step u ev s).1.db.orders.find? (fun x => x.id == oid)) = some o
    rcases step_db_orders u ev s with he | ⟨x, he⟩
    · rw [he]
      exact h
    · rw [he, List.find?_append]
      unfold getOrder at h
      rw [h]
      rfl
  | admin c => exact getOrder_admin_preserved s.db oid o c h hterm

theorem sysRun_preserves_found (ops : List SysOp) :
    ∀ (s : BotState) (oid : Nat) (o : Order),
      getOrder s.db oid = some o → o.status ≠ "pending" →
      getOrder (sysRun s ops).db oid = some o := by
  induction ops with
  | nil => exact fun s oid o h _ => h
  | cons op t ih =>
    exact fun s oid o h hterm =>
      ih (sysStep s op) oid o (sysStep_preserves_found s op oid o h hterm) hterm

/-- C2: an approve or reject action by the configured admin principal moves
an order from 'pending' to the corresponding terminal status, and once an
order's status is terminal no sequence of operations (customer events or
admin-gate calls) ever changes that order again. -/
theorem claim_C2 (s : BotState) (oid : Nat) (o : Order) (adminId : Nat)
    (act : AdminAction) (h : getOrder s.db oid = some o) :
    (o.status = "pending" →
      (getOrder (admin_decision (some adminId) adminId act oid s.db) oid =
         some { o with status := actionStatus act } ∧
       actionStatus act ∈ terminalStatuses)) ∧
    (o.status ∈ terminalStatuses →
      ∀ ops : List SysOp, getOrder (sysRun s ops).db oid = some o) := by
  constructor
  · intro hpend
    constructor
    · unfold admin_decision
      dsimp only
      rw [if_pos rfl, h]
      dsimp only
      rw [if_pos hpend]
      exact getOrder_updateStatus_self s.db oid _ o h
    · cases act <;> simp [actionStatus, terminalStatuses]
  · intro hterm ops
    have hne : o.status ≠ "pending" := by
      simp only [terminalStatuses, List.mem_cons, List.not_mem_nil, or_false] at hterm
      rcases hterm with h1 | h1 <;> rw [h1] <;> decide
    exact sysRun_preserves_found ops s oid o h hne

/-- Closed instance of C2: approving a concrete pending order, and a
concrete approved order surviving a reject attempt and a customer event. -/
theorem claim_C2_witness :
    (getOrder ({ db := c2db } : BotState).db 5 = some c2order ∧
     c2order.status = "pending" ∧
     getOrder (admin_decision (some 9) 9 .approve 5 ({ db := c2db } : BotState).db) 5 =
       some { c2order with status := actionStatus .approve } ∧
     actionStatus AdminAction.approve ∈ terminalStatuses) ∧
    (getOrder ({ db := c2dbA } : BotState).db 5 = some c2orderA ∧
     c2orderA.status ∈ terminalStatuses ∧
     getOrder (sysRun { db := c2dbA }
       [SysOp.admin ⟨some 9, 9, .reject, 5⟩,
        SysOp.bot w0 (.message (some "hey") [])]).db 5 = some c2orderA) :=
  ⟨⟨by decide, by decide,
    ((claim_C2 { db := c2db } 5 c2order 9 .approve (by decide)).1 (by decide)).1,
    ((claim_C2 { db := c2db } 5 c2order 9 .approve (by decide)).1 (by decide)).2⟩,
   ⟨by decide, by decide,
    (claim_C2 { db := c2dbA } 5 c2orderA 9 .reject (by decide)).2 (by decide)
      [SysOp.admin ⟨some 9, 9, .reject, 5⟩,
       SysOp.bot w0 (.message (some "hey") [])]⟩⟩


end SharkV1
